import Mathlib

/-!
Verification of the GHOST-PROTOCOL desktop application core, a shallow
embedding of `main.py` and `security_threads.py`: the RAM-only encrypted
vault with its secure-wipe routine, the panic coordinator, and the two
security monitors (camera sentinel and USB dead-man's-switch guard).

Byte strings (`bytes` in Python) are modelled as `List Nat`; the external
AES-GCM cipher and the UTF-8 codec are modelled as structures bundling
their library contracts; the monitor worker loops are modelled as explicit
step functions over the mutable fields they read and write.
-/

/-! ## Byte strings -/

/-- Python `bytes` values, one `Nat` per byte. -/
abbrev Bytes := List Nat

/-! ## External cipher and codec collaborators

`GhostProtocolVault` calls `Crypto.Cipher.AES` in GCM mode and Python's
UTF-8 string codec.  Both are external libraries; they are modelled as
abstract operations bundled with the contracts the library documents:
GCM decryption with the same key and nonce inverts encryption, GCM
ciphertext has the same length as the plaintext, and UTF-8 decoding
inverts encoding (with the empty string encoding to the empty byte
string). -/

/-- AES-256-GCM as provided by `Crypto.Cipher.AES` (`AES.new(key,
AES.MODE_GCM, nonce=iv)` followed by `encrypt_and_digest` /
`decrypt`). `enc k n m` and `dec k n c` take key, nonce and message. -/
structure GCMCipher where
  enc : Bytes → Bytes → Bytes → Bytes
  dec : Bytes → Bytes → Bytes → Bytes
  dec_enc : ∀ k n m, dec k n (enc k n m) = m
  enc_length : ∀ k n m, (enc k n m).length = m.length

/-- Python's UTF-8 codec (`str.encode("utf-8")` / `bytes.decode("utf-8")`,
the latter fallible). -/
structure UTF8Codec where
  encode : String → Bytes
  decode : Bytes → Option String
  decode_encode : ∀ s, decode (encode s) = some s
  encode_eq_nil : ∀ s, encode s = [] ↔ s = ""

/-! ## The vault (`GhostProtocolVault` in `main.py`) -/

/-- The mutable fields of `GhostProtocolVault`: `_key`,
`_encrypted_data`, `_iv`, `_nuked`. -/
structure Vault where
  key : Bytes
  encrypted_data : Bytes
  iv : Bytes
  nuked : Bool
deriving DecidableEq

/-- `GhostProtocolVault.__init__`: a fresh random 32-byte key `key0`
(`get_random_bytes(32)`), empty ciphertext and IV, not nuked. -/
def initVault (key0 : Bytes) : Vault :=
  { key := key0, encrypted_data := [], iv := [], nuked := false }

/-- `GhostProtocolVault.encrypt`: a no-op when nuked; otherwise store a
fresh 16-byte IV and the GCM ciphertext of the UTF-8 encoded plaintext. -/
def Vault.encrypt (C : GCMCipher) (U : UTF8Codec) (freshIV : Bytes)
    (p : String) (v : Vault) : Vault :=
  if v.nuked then v
  else { v with iv := freshIV,
                encrypted_data := C.enc v.key freshIV (U.encode p) }

/-- `GhostProtocolVault.decrypt`: returns `""` when nuked or when no
ciphertext is stored (`if self._nuked or not self._encrypted_data`);
otherwise decrypts with the stored key and IV and UTF-8 decodes, with a
decode failure caught and turned into `""`. -/
def Vault.decrypt (C : GCMCipher) (U : UTF8Codec) (v : Vault) : String :=
  if v.nuked || v.encrypted_data.isEmpty then ""
  else
    match U.decode (C.dec v.key v.iv v.encrypted_data) with
    | some s => s
    | none => ""

/-- `GhostProtocolVault.nuke_memory`.  `urandom i n` models the result of
the `i`-th `os.urandom(n)` overwrite pass (passes 0-2 on the key, 3-5 on
the ciphertext, 6-8 on the IV); `failAt = some i` models pass `i` raising,
which transfers control to the `except` handler.  The handler overwrites
every field regardless of how far the `try` body progressed, so the
resulting state does not depend on `i`.  On the successful path the key
is set to `b"\x00" * key_len`, the ciphertext and IV to `b""`. -/
def Vault.nuke_memory (urandom : Nat → Nat → Bytes) (failAt : Option Nat)
    (v : Vault) : Vault :=
  if v.nuked then v
  else
    match failAt with
    | some _ =>
        -- except branch: "Force overwrite even on error"
        { key := [], encrypted_data := [], iv := [], nuked := true }
    | none =>
        -- key_len = len(self._key) if self._key else 32
        let key_len := if v.key.isEmpty then 32 else v.key.length
        let v1 := { v with key := urandom 0 key_len }
        let v2 := { v1 with key := urandom 1 key_len }
        let v3 := { v2 with key := urandom 2 key_len }
        -- self._key = b"\x00" * key_len
        let v4 := { v3 with key := List.replicate key_len 0 }
        -- data_len = len(self._encrypted_data) if self._encrypted_data else 0
        let data_len := v.encrypted_data.length
        let v5 :=
          if 0 < data_len then
            let a := { v4 with encrypted_data := urandom 3 data_len }
            let b := { a with encrypted_data := urandom 4 data_len }
            { b with encrypted_data := urandom 5 data_len }
          else v4
        -- self._encrypted_data = b""
        let v6 := { v5 with encrypted_data := [] }
        -- iv_len = len(self._iv) if self._iv else 16
        let iv_len := if v.iv.isEmpty then 16 else v.iv.length
        let v7 := { v6 with iv := urandom 6 iv_len }
        let v8 := { v7 with iv := urandom 7 iv_len }
        let v9 := { v8 with iv := urandom 8 iv_len }
        -- self._iv = b""; self._nuked = True
        { v9 with iv := [], nuked := true }

/-! ### Concrete cipher and codec instances

Degenerate but contract-satisfying instances of the two external
collaborators, used to evaluate the vault model on concrete inputs. -/

/-- A degenerate cipher satisfying the `GCMCipher` interface. -/
def idCipher : GCMCipher where
  enc := fun _ _ m => m
  dec := fun _ _ c => c
  dec_enc := fun _ _ _ => rfl
  enc_length := fun _ _ _ => rfl

/-- A concrete codec satisfying the `UTF8Codec` interface: each character
becomes its code point. -/
def charCodec : UTF8Codec where
  encode s := s.data.map Char.toNat
  decode l := some (String.mk (l.map Char.ofNat))
  decode_encode s := by
    cases s with
    | mk d => simp [List.map_map, Function.comp_def, Char.ofNat_toNat]
  encode_eq_nil s := by
    cases s with
    | mk d =>
        constructor
        · intro h
          have hd : d = [] := by simpa using h
          simp [hd]
        · intro h
          have hd : d = [] := by
            have := congrArg String.data h
            simpa using this
          simp [hd]

/-! ## Token enumeration (`USBGuard.check_ghost_key_present`)

The platform partition/label enumeration (psutil, volume labels, mount
scans) is the external token classifier; its outcome is `.ok b`
(enumeration succeeded and reported presence `b`) or `.error u` (some
step inside the `try` block raised).  The `except` handler prints the
error and returns `False`. -/

/-- `USBGuard.check_ghost_key_present`, as a function of the enumeration
outcome: the caught-error path returns `False`. -/
def check_ghost_key_present (q : Except Unit Bool) : Bool :=
  match q with
  | .ok b => b
  | .error _ => false

/-! ## The USB guard worker (`USBGuard` in `security_threads.py`)

`_monitor_loop` reads `_bypass_mode` once under its lock when the worker
starts; in bypass mode it emits one "BYPASSED" status and idles.
Otherwise the first sample establishes the baseline (`initial_state`),
emitting "SECURE" or "NO KEY", and each later sample either trips the
dead-man's switch (baseline present, sample absent) or toggles the
status against `_usb_present`.  The loop is modelled as a step function
over the guard's mutable fields plus an explicit phase. -/

/-- Side effects emitted by a monitor worker: a `status_callback`
invocation or a `panic_callback` invocation. -/
inductive UOut where
  | status (k v : String)
  | panic
deriving DecidableEq

/-- Program point of the `USBGuard._monitor_loop` worker: before the
one-time bypass read, idling in bypass mode, awaiting the baseline
sample, armed with the fixed `initial_state` baseline, or stopped by a
`break`. -/
inductive UPhase where
  | atStart
  | bypassIdle
  | needBaseline
  | armed (baseline : Bool)
  | stopped
deriving DecidableEq

/-- Mutable state of a `USBGuard`: the worker's program point,
`_usb_present`, and `_bypass_mode`. -/
structure UState where
  phase : UPhase
  usbPresent : Bool
  bypassMode : Bool
deriving DecidableEq

/-- `USBGuard.__init__` (with `bypass` the value of `_bypass_mode` when
the worker starts): `_usb_present = False`, worker not yet started. -/
def usbInit (bypass : Bool) : UState :=
  { phase := .atStart, usbPresent := false, bypassMode := bypass }

/-- Events driving the guard: the worker passing its one-time bypass
read (`begin`), one `check_ghost_key_present` poll result (`sample`),
or an external `set_bypass_mode` call. -/
inductive UEvent where
  | begin
  | sample (b : Bool)
  | setBypass (b : Bool)

/-- `USBGuard.set_bypass_mode`: writes `_bypass_mode` under
`_bypass_lock`; no status or panic side effect. -/
def set_bypass_mode (s : UState) (b : Bool) : UState :=
  { s with bypassMode := b }

/-- One step of `USBGuard._monitor_loop`, mirroring the source: the
one-time bypass read at the start, the baseline check, the trip test
`initial_state and not current_state`, and the SECURE / NO KEY toggles
against `_usb_present`. -/
def usbStep (s : UState) (e : UEvent) : UState × List UOut :=
  match e with
  | .setBypass b => (set_bypass_mode s b, [])
  | .begin =>
      match s.phase with
      | .atStart =>
          if s.bypassMode then
            ({ s with phase := .bypassIdle }, [.status "usb" "BYPASSED"])
          else
            ({ s with phase := .needBaseline }, [])
      | _ => (s, [])
  | .sample b =>
      match s.phase with
      | .needBaseline =>
          ({ s with phase := .armed b, usbPresent := b },
           [if b then .status "usb" "SECURE" else .status "usb" "NO KEY"])
      | .armed baseline =>
          if baseline && !b then
            ({ s with phase := .stopped },
             [.status "usb" "REMOVED", .status "threat" "CRITICAL", .panic])
          else
            ({ s with usbPresent := b },
             if b && !s.usbPresent then [.status "usb" "SECURE"]
             else if !b && s.usbPresent then [.status "usb" "NO KEY"]
             else [])
      | _ => (s, [])

/-- Run the guard over a list of events, collecting emitted outputs in
order. -/
def usbRun (s : UState) : List UEvent → UState × List UOut
  | [] => (s, [])
  | e :: es =>
      let r := usbStep s e
      let r2 := usbRun r.1 es
      (r2.1, r.2 ++ r2.2)

/-- Number of `panic_callback` invocations in an output trace. -/
def panicCount (l : List UOut) : Nat :=
  l.countP (fun o => match o with | .panic => true | _ => false)

/-- The values of the status events with key "usb" in a trace, in
order. -/
def usbStatuses (l : List UOut) : List String :=
  l.filterMap (fun o => match o with
    | .status "usb" v => some v
    | _ => none)

/-! ## The camera sentinel worker (`CameraSentinel` in
`security_threads.py`)

After a successful camera+cascade setup (which emits status
"camera"/"ARMED"), `_monitor_loop` classifies each frame's face count
with `last_face_count` starting at 1: count 0 engages the privacy
shield on the edge, count 1 disengages it on the edge, count > 1
unconditionally reports BREACH / CRITICAL, invokes the panic callback
and breaks. -/

/-- Side effects of the camera sentinel: status, blur toggle, panic. -/
inductive COut where
  | status (k v : String)
  | blur (b : Bool)
  | panic
deriving DecidableEq

/-- The three-way classification of a face count used by the loop's
branches. -/
inductive FaceClass where
  | absent
  | present
  | intrusion
deriving DecidableEq

/-- `n == 0` / `n == 1` / `n > 1` as in the loop's if-chain. -/
def classify (n : Nat) : FaceClass :=
  if n = 0 then .absent else if n = 1 then .present else .intrusion

/-- One iteration of the `CameraSentinel._monitor_loop` body on face
count `n` with previous count `last`: returns the emitted side effects
and whether the loop breaks. -/
def camStep (last n : Nat) : List COut × Bool :=
  if n = 0 then
    (if last ≠ 0 then [.status "camera" "LOCKED", .blur true] else [], false)
  else if n = 1 then
    (if last ≠ 1 then [.status "camera" "ARMED", .blur false] else [], false)
  else
    ([.status "camera" "BREACH", .status "threat" "CRITICAL", .panic], true)

/-- The sentinel loop over a list of face-count samples, threading
`last_face_count` and stopping at a `break`. -/
def camRun (last : Nat) : List Nat → List COut
  | [] => []
  | n :: ns =>
      let r := camStep last n
      if r.2 then r.1 else r.1 ++ camRun n ns

/-- The whole worker after a successful camera setup: the setup emits
status "camera"/"ARMED", then the loop runs with `last_face_count = 1`
("Assume user is present initially"). -/
def cameraLoop (samples : List Nat) : List COut :=
  .status "camera" "ARMED" :: camRun 1 samples

/-- Number of panic invocations in a camera output trace. -/
def camPanicCount (l : List COut) : Nat :=
  l.countP (fun o => match o with | .panic => true | _ => false)

/-! ## The panic coordinator (`GhostProtocol._trigger_panic` in
`main.py`)

`_trigger_panic` takes `_panic_lock`, returns at once if
`_panic_triggered` is already set, otherwise sets it and (after
releasing the lock) runs the destructive sequence: stop monitors, nuke
the vault, best-effort GUI notification, `os._exit(0)`.  The lock makes
the check-and-set atomic, so concurrent callers serialize to a sequence
of invocations. -/

/-- The panic-relevant state of a `GhostProtocol` instance: the
`_panic_triggered` flag and which parts of the destructive sequence
have run. -/
structure AppState where
  panicTriggered : Bool
  monitorsStopped : Bool
  vaultNuked : Bool
  uiNotified : Bool
  terminated : Bool
deriving DecidableEq

/-- `GhostProtocol.__init__`: `_panic_triggered = False`, nothing run. -/
def initApp : AppState :=
  { panicTriggered := false, monitorsStopped := false, vaultNuked := false,
    uiNotified := false, terminated := false }

/-- `GhostProtocol._trigger_panic`: atomic check-and-set of
`_panic_triggered` under `_panic_lock`, then (winner only) the
destructive sequence.  The second component counts executions of the
destructive sequence in this call (1 for the winner, 0 otherwise). -/
def trigger_panic (s : AppState) : AppState × Nat :=
  if s.panicTriggered then (s, 0)
  else
    ({ panicTriggered := true, monitorsStopped := true, vaultNuked := true,
       uiNotified := true, terminated := true }, 1)

/-- The four sources that route into `_trigger_panic`: a monitor's
`panic_callback`, `_signal_handler`, the GUI panic button's
`panic_callback`, and the `atexit`-registered `_cleanup` (which checks
the flag first and then calls `_trigger_panic`). -/
inductive PanicSource where
  | monitor
  | signalHandler
  | manualButton
  | atexitCleanup

/-- Dispatch one panic source to `_trigger_panic`, as wired in
`main.py` and `gui.py`. -/
def invoke (s : AppState) (src : PanicSource) : AppState × Nat :=
  match src with
  | .monitor => trigger_panic s
  | .signalHandler => trigger_panic s
  | .manualButton => trigger_panic s
  | .atexitCleanup => if s.panicTriggered then (s, 0) else trigger_panic s

/-- Run a sequence of panic-source invocations, summing destructive
executions. -/
def invokeAll (s : AppState) : List PanicSource → AppState × Nat
  | [] => (s, 0)
  | src :: rest =>
      let r := invoke s src
      let r2 := invokeAll r.1 rest
      (r2.1, r.2 + r2.2)

/-! ## Startup and process exit (`GhostProtocol.run`, `main`,
`sys.exit(main())` and the atexit-registered `_cleanup` in `main.py`) -/

/-- The status passed to `os._exit` at the end of `_trigger_panic`. -/
def panic_exit_code : Nat := 0

/-- Interpreter shutdown after `sys.exit(pending)` raises `SystemExit`:
the atexit-registered `_cleanup` runs; if `_panic_triggered` is still
false it calls `_trigger_panic`, which ends in `os._exit(0)`, discarding
the pending `SystemExit` status; if the flag is already set, `_cleanup`
does nothing and the pending status stands.  Returns the actual process
exit status and whether the destructive sequence ran during shutdown. -/
def atexit_shutdown (pending : Nat) (panicTriggered : Bool) : Nat × Bool :=
  if panicTriggered then (pending, false)
  else (panic_exit_code, true)

/-- Observable outcome of one run of the application process:
the process exit status, the value `GhostProtocol.run` returned
(`none` when `os._exit` fired before it could return), and what got
created / executed along the way. -/
structure ProcResult where
  exitCode : Nat
  runReturned : Option Nat
  vaultCreated : Bool
  monitorsStarted : Bool
  panicFired : Bool
deriving DecidableEq

/-- `GhostProtocol._check_usb_key`: `True` when bypassed, else the
token check. -/
def check_usb_key (bypass : Bool) (q : Except Unit Bool) : Bool :=
  if bypass then true else check_ghost_key_present q

/-- The whole process, `sys.exit(main())` around `GhostProtocol.run`,
with `__init__` having registered `_cleanup` via atexit before `run`
executes.  If the startup token check fails, `run` returns 1 before the
vault or any monitor is created and `sys.exit(1)` starts interpreter
shutdown with `_panic_triggered` still false — so `atexit_shutdown`
runs the panic sequence and `os._exit(0)` decides the exit status.
Otherwise the vault, GUI and monitors start and `_trigger_panic`'s
`os._exit(0)` fires before `run` can return: either a panic during the
GUI main loop (`panicDuring`), or the `finally` block triggering panic
on graceful shutdown; `os._exit` bypasses atexit entirely. -/
def ghostProcess (bypass : Bool) (q : Except Unit Bool)
    (panicDuring : Bool) : ProcResult :=
  if check_usb_key bypass q = false then
    { exitCode := (atexit_shutdown 1 false).1,
      runReturned := some 1,
      vaultCreated := false, monitorsStarted := false,
      panicFired := (atexit_shutdown 1 false).2 }
  else if panicDuring then
    -- _trigger_panic inside the main loop ends in os._exit(0)
    { exitCode := panic_exit_code, runReturned := none,
      vaultCreated := true, monitorsStarted := true, panicFired := true }
  else
    -- finally block: panic not yet fired, _trigger_panic, os._exit(0)
    { exitCode := panic_exit_code, runReturned := none,
      vaultCreated := true, monitorsStarted := true, panicFired := true }

/-! ## Claim theorems: the vault -/

/-- C2: claimed, calling `nuke()` zeroes and length-collapses to empty all
three sensitive fields.  On the successful wipe path the code leaves
`_key` as `b"\x00" * key_len` — 32 zero bytes, zeroed but not collapsed
to empty, contradicting the function's own docstring ("... before setting
them to empty values") — while `_encrypted_data` and `_iv` do become
`b""`.  Evaluated here on a fresh vault with a 32-byte key. -/
theorem C2_key_not_collapsed :
    (Vault.nuke_memory (fun _ n => List.replicate n 7) none
        (initVault (List.replicate 32 1))).key = List.replicate 32 0 ∧
    (Vault.nuke_memory (fun _ n => List.replicate n 7) none
        (initVault (List.replicate 32 1))).key ≠ [] ∧
    (Vault.nuke_memory (fun _ n => List.replicate n 7) none
        (initVault (List.replicate 32 1))).encrypted_data = [] ∧
    (Vault.nuke_memory (fun _ n => List.replicate n 7) none
        (initVault (List.replicate 32 1))).iv = [] := by
  refine ⟨by decide, by decide, by decide, by decide⟩

/-- C6: if any individual overwrite pass inside `nuke_memory` raises, the
`except` handler forces `_key`, `_encrypted_data` and `_iv` to empty and
sets `_nuked`, without propagating the error. -/
theorem C6_wipe_error_path (urandom : Nat → Nat → Bytes) (i : Nat)
    (v : Vault) (h : v.nuked = false) :
    (Vault.nuke_memory urandom (some i) v).key = [] ∧
    (Vault.nuke_memory urandom (some i) v).encrypted_data = [] ∧
    (Vault.nuke_memory urandom (some i) v).iv = [] ∧
    (Vault.nuke_memory urandom (some i) v).nuked = true := by
  simp [Vault.nuke_memory, h]

/-- Witness for C6 at a concrete vault and failing pass. -/
theorem C6_wipe_error_path_witness :
    (initVault [1, 2, 3]).nuked = false ∧
    ((Vault.nuke_memory (fun _ n => List.replicate n 9) (some 4)
        (initVault [1, 2, 3])).key = [] ∧
     (Vault.nuke_memory (fun _ n => List.replicate n 9) (some 4)
        (initVault [1, 2, 3])).encrypted_data = [] ∧
     (Vault.nuke_memory (fun _ n => List.replicate n 9) (some 4)
        (initVault [1, 2, 3])).iv = [] ∧
     (Vault.nuke_memory (fun _ n => List.replicate n 9) (some 4)
        (initVault [1, 2, 3])).nuked = true) :=
  ⟨rfl, C6_wipe_error_path (fun _ n => List.replicate n 9) 4
      (initVault [1, 2, 3]) rfl⟩

/-- C9: on a non-nuked vault, `encrypt(p)` followed by `decrypt()` returns
`p`, for every plaintext `p` and any cipher/codec satisfying the library
contracts; and `decrypt()` on a fresh vault (nothing ever encrypted)
returns the empty string. -/
theorem C9_encrypt_decrypt_roundtrip (C : GCMCipher) (U : UTF8Codec)
    (freshIV k : Bytes) (p : String) (v : Vault) (h : v.nuked = false) :
    Vault.decrypt C U (Vault.encrypt C U freshIV p v) = p ∧
    Vault.decrypt C U (initVault k) = "" := by
  refine ⟨?_, by simp [Vault.decrypt, initVault]⟩
  by_cases hp : p = ""
  · subst hp
    have he : U.encode "" = [] := (U.encode_eq_nil "").mpr rfl
    have hz : C.enc v.key freshIV (U.encode "") = [] := by
      refine List.eq_nil_of_length_eq_zero ?_
      rw [C.enc_length, he]
      rfl
    simp [Vault.encrypt, Vault.decrypt, h, hz]
  · have hne : U.encode p ≠ [] := fun hh => hp ((U.encode_eq_nil p).mp hh)
    have henc : C.enc v.key freshIV (U.encode p) ≠ [] := by
      intro hh
      apply hne
      refine List.eq_nil_of_length_eq_zero ?_
      have hl := C.enc_length v.key freshIV (U.encode p)
      rw [hh] at hl
      simpa using hl.symm
    simp [Vault.encrypt, Vault.decrypt, h, henc, C.dec_enc, U.decode_encode]

/-- Witness for C9 with concrete cipher, codec, key, IV and plaintext. -/
theorem C9_encrypt_decrypt_roundtrip_witness :
    (initVault (List.replicate 32 5)).nuked = false ∧
    (Vault.decrypt idCipher charCodec
        (Vault.encrypt idCipher charCodec [9, 9] "hi"
          (initVault (List.replicate 32 5))) = "hi" ∧
     Vault.decrypt idCipher charCodec (initVault [1]) = "") :=
  ⟨rfl, C9_encrypt_decrypt_roundtrip idCipher charCodec [9, 9] [1] "hi"
      (initVault (List.replicate 32 5)) rfl⟩

/-! ## Claim theorems: the panic coordinator and startup -/

/-- Once `_panic_triggered` is set, every further invocation from any
source returns immediately: no state change, no destructive execution. -/
theorem invoke_triggered_noop (s : AppState) (src : PanicSource)
    (h : s.panicTriggered = true) : invoke s src = (s, 0) := by
  cases src <;> simp [invoke, trigger_panic, h]

/-- Runs from an already-triggered state execute nothing and leave the
state unchanged. -/
theorem invokeAll_triggered (srcs : List PanicSource) :
    ∀ s : AppState, s.panicTriggered = true → invokeAll s srcs = (s, 0) := by
  induction srcs with
  | nil => intro s h; rfl
  | cons src rest ih =>
      intro s h
      simp [invokeAll, invoke_triggered_noop s src h, ih s h]

/-- C1: for every non-empty sequence of panic invocations (monitors,
signal handler, manual button, atexit cleanup) starting from a fresh
`GhostProtocol`, the destructive sequence executes exactly once, the
flag ends up (and stays) true, and once the flag is true no operation
resets it or re-executes the sequence. -/
theorem C1_panic_exactly_once (srcs : List PanicSource) (h : srcs ≠ []) :
    (invokeAll initApp srcs).2 = 1 ∧
    (invokeAll initApp srcs).1.panicTriggered = true ∧
    (∀ (s : AppState) (src : PanicSource), s.panicTriggered = true →
      invoke s src = (s, 0)) := by
  refine ⟨?_, ?_, invoke_triggered_noop⟩ <;>
  · cases srcs with
    | nil => exact absurd rfl h
    | cons src rest =>
        have h1 : invoke initApp src =
            ({ panicTriggered := true, monitorsStopped := true,
               vaultNuked := true, uiNotified := true, terminated := true }, 1) := by
          cases src <;> rfl
        have h2 := invokeAll_triggered rest
            { panicTriggered := true, monitorsStopped := true,
              vaultNuked := true, uiNotified := true, terminated := true } rfl
        simp [invokeAll, h1, h2]

/-- Witness for C1: two racing sources, one destructive execution. -/
theorem C1_panic_exactly_once_witness :
    ([PanicSource.monitor, PanicSource.signalHandler] ≠ []) ∧
    ((invokeAll initApp [PanicSource.monitor, PanicSource.signalHandler]).2 = 1 ∧
     (invokeAll initApp
        [PanicSource.monitor, PanicSource.signalHandler]).1.panicTriggered = true ∧
     (∀ (s : AppState) (src : PanicSource), s.panicTriggered = true →
        invoke s src = (s, 0))) :=
  ⟨by simp, C1_panic_exactly_once [PanicSource.monitor, PanicSource.signalHandler]
      (by simp)⟩

/-- C8: the claim says the process exits with status 1 when the token
precondition fails at startup without bypass.  The code instead exits 0
there: `run` returns 1 and `sys.exit(1)` is raised, but the
atexit-registered `_cleanup` (registered in `__init__`) finds
`_panic_triggered` false, calls `_trigger_panic`, and its `os._exit(0)`
overrides the pending `SystemExit(1)` — contradicting `run`'s own
docstring ("Exit code (0 = success, 1 = error)").  Evaluated at the
failing input (no bypass, token check reports absent); the remaining
parts of the claim hold: no vault and no monitors are ever created on
that path, and every path of every run exits with status 0. -/
theorem C8_failed_precondition_exits_zero :
    (ghostProcess false (.ok false) false).runReturned = some 1 ∧
    (ghostProcess false (.ok false) false).exitCode = 0 ∧
    (ghostProcess false (.ok false) false).exitCode ≠ 1 ∧
    (ghostProcess false (.ok false) false).vaultCreated = false ∧
    (ghostProcess false (.ok false) false).monitorsStarted = false ∧
    (∀ (bypass : Bool) (q : Except Unit Bool) (panicDuring : Bool),
      (ghostProcess bypass q panicDuring).exitCode = 0) := by
  refine ⟨rfl, rfl, by decide, rfl, rfl, ?_⟩
  intro bypass q panicDuring
  rcases q with u | b
  · cases u; cases bypass <;> cases panicDuring <;> decide
  · cases bypass <;> cases b <;> cases panicDuring <;> decide

/-! ## Claim theorems: the USB guard -/

/-- After the `break` the worker processes no further samples: no
outputs, phase stays `stopped`. -/
theorem usbRun_stopped (l : List Bool) (p bm : Bool) :
    usbRun { phase := .stopped, usbPresent := p, bypassMode := bm }
        (l.map .sample)
      = ({ phase := .stopped, usbPresent := p, bypassMode := bm }, []) := by
  induction l with
  | nil => rfl
  | cons b bs ih => simp [usbRun, usbStep, ih]

/-- The bypass idle loop: samples produce no outputs and no state
change. -/
theorem usbRun_bypassIdle (l : List Bool) (p bm : Bool) :
    usbRun { phase := .bypassIdle, usbPresent := p, bypassMode := bm }
        (l.map .sample)
      = ({ phase := .bypassIdle, usbPresent := p, bypassMode := bm }, []) := by
  induction l with
  | nil => rfl
  | cons b bs ih => simp [usbRun, usbStep, ih]

/-- A worker armed with an absent baseline never panics and only emits
SECURE / NO KEY usb statuses. -/
theorem usbRun_armed_false (l : List Bool) :
    ∀ p bm : Bool,
      panicCount (usbRun (UState.mk (.armed false) p bm) (l.map .sample)).2 = 0 ∧
      ((usbStatuses (usbRun (UState.mk (.armed false) p bm) (l.map .sample)).2).all
        (fun v => v = "SECURE" || v = "NO KEY")) = true := by
  induction l with
  | nil => intro p bm; exact ⟨rfl, rfl⟩
  | cons b bs ih =>
      intro p bm
      have H := ih b bm
      cases b <;> cases p <;>
        simpa [usbRun, usbStep, panicCount, usbStatuses, List.countP_append,
               List.filterMap_append] using H

/-- C5: in bypass mode the guard emits exactly one "BYPASSED" status and
nothing else (in particular it never panics); with an absent baseline,
later presence/absence toggles never panic and only move the usb status
between "SECURE" and "NO KEY". -/
theorem C5_bypass_and_unarmed_never_panic (samples : List Bool) :
    (usbRun (usbInit true) (.begin :: samples.map .sample)).2
      = [.status "usb" "BYPASSED"] ∧
    panicCount (usbRun (usbInit false)
        (.begin :: .sample false :: samples.map .sample)).2 = 0 ∧
    ((usbStatuses (usbRun (usbInit false)
        (.begin :: .sample false :: samples.map .sample)).2).all
      (fun v => v = "SECURE" || v = "NO KEY")) = true := by
  refine ⟨?_, ?_, ?_⟩
  · simp [usbRun, usbStep, usbInit, usbRun_bypassIdle]
  · have H := (usbRun_armed_false samples false false).1
    simpa [usbRun, usbStep, usbInit, panicCount, List.countP_append] using H
  · have H := (usbRun_armed_false samples false false).2
    simpa [usbRun, usbStep, usbInit, usbStatuses, List.filterMap_append]
      using H

/-- A worker armed with a present baseline trips on the first absent
sample: exactly one panic, REMOVED and CRITICAL emitted, loop stopped. -/
theorem usbRun_armed_true_trips (l : List Bool) :
    ∀ p bm : Bool, false ∈ l →
      panicCount (usbRun (UState.mk (.armed true) p bm) (l.map .sample)).2 = 1 ∧
      UOut.status "usb" "REMOVED" ∈ (usbRun (UState.mk (.armed true) p bm) (l.map .sample)).2 ∧
      UOut.status "threat" "CRITICAL" ∈ (usbRun (UState.mk (.armed true) p bm) (l.map .sample)).2 ∧
      (usbRun (UState.mk (.armed true) p bm)
          (l.map .sample)).1.phase = .stopped := by
  induction l with
  | nil => intro p bm h; simp at h
  | cons b bs ih =>
      intro p bm h
      cases b
      · -- absent sample: trip now; nothing is processed afterwards
        simp [usbRun, usbStep, usbRun_stopped, panicCount, List.countP_append]
      · -- present sample: at most a SECURE toggle, stay armed
        have hbs : false ∈ bs := by simpa using h
        have H := ih true bm hbs
        cases p <;>
          simpa [usbRun, usbStep, panicCount, List.countP_append] using H

/-- C3: if the token was present at the baseline sample and any later
sample reports it absent, the guard emits "REMOVED" and threat
"CRITICAL", invokes panic exactly once, and stops its worker loop. -/
theorem C3_deadman_armed_trips (samples : List Bool) (h : false ∈ samples) :
    panicCount (usbRun (usbInit false)
        (.begin :: .sample true :: samples.map .sample)).2 = 1 ∧
    UOut.status "usb" "REMOVED" ∈ (usbRun (usbInit false)
        (.begin :: .sample true :: samples.map .sample)).2 ∧
    UOut.status "threat" "CRITICAL" ∈ (usbRun (usbInit false)
        (.begin :: .sample true :: samples.map .sample)).2 ∧
    (usbRun (usbInit false)
        (.begin :: .sample true :: samples.map .sample)).1.phase
      = .stopped := by
  have H := usbRun_armed_true_trips samples true false h
  simpa [usbRun, usbStep, usbInit, panicCount, List.countP_append] using H

/-- Witness for C3: baseline present, second sample absent. -/
theorem C3_deadman_armed_trips_witness :
    (false ∈ [true, false]) ∧
    (panicCount (usbRun (usbInit false)
        (.begin :: .sample true :: [true, false].map .sample)).2 = 1 ∧
     UOut.status "usb" "REMOVED" ∈ (usbRun (usbInit false)
        (.begin :: .sample true :: [true, false].map .sample)).2 ∧
     UOut.status "threat" "CRITICAL" ∈ (usbRun (usbInit false)
        (.begin :: .sample true :: [true, false].map .sample)).2 ∧
     (usbRun (usbInit false)
        (.begin :: .sample true :: [true, false].map .sample)).1.phase
       = .stopped) :=
  ⟨by decide, C3_deadman_armed_trips [true, false] (by decide)⟩

/-- Once the worker is past its one-time `_bypass_mode` read, a step's
outputs and its effect on the phase and `_usb_present` do not depend on
the `_bypass_mode` field, and the phase never returns to the read
point. -/
theorem usbStep_bypass_irrelevant (s t : UState) (e : UEvent)
    (hp : s.phase = t.phase) (hu : s.usbPresent = t.usbPresent)
    (hs : s.phase ≠ .atStart) :
    (usbStep s e).2 = (usbStep t e).2 ∧
    (usbStep s e).1.phase = (usbStep t e).1.phase ∧
    (usbStep s e).1.usbPresent = (usbStep t e).1.usbPresent ∧
    (usbStep s e).1.phase ≠ .atStart := by
  rcases s with ⟨ph, up, bm⟩
  rcases t with ⟨ph2, up2, bm2⟩
  simp only at hp hu
  subst hp
  subst hu
  cases e with
  | setBypass b => exact ⟨rfl, rfl, rfl, hs⟩
  | begin =>
      cases ph with
      | atStart => exact absurd rfl hs
      | bypassIdle => exact ⟨rfl, rfl, rfl, hs⟩
      | needBaseline => exact ⟨rfl, rfl, rfl, hs⟩
      | armed b0 => exact ⟨rfl, rfl, rfl, hs⟩
      | stopped => exact ⟨rfl, rfl, rfl, hs⟩
  | sample b =>
      cases ph with
      | atStart => exact absurd rfl hs
      | bypassIdle => exact ⟨rfl, rfl, rfl, hs⟩
      | needBaseline => refine ⟨rfl, rfl, rfl, by simp [usbStep]⟩
      | armed b0 =>
          by_cases hb : (b0 && !b) = true
          · simp [usbStep, hb]
          · simp [usbStep, hb]
      | stopped => exact ⟨rfl, rfl, rfl, hs⟩

/-- Run-level version of `usbStep_bypass_irrelevant`. -/
theorem usbRun_bypass_irrelevant (evs : List UEvent) :
    ∀ s t : UState, s.phase = t.phase → s.usbPresent = t.usbPresent →
      s.phase ≠ .atStart →
      (usbRun s evs).2 = (usbRun t evs).2 ∧
      (usbRun s evs).1.phase = (usbRun t evs).1.phase := by
  induction evs with
  | nil => intro s t hp hu hs; exact ⟨rfl, hp⟩
  | cons e es ih =>
      intro s t hp hu hs
      obtain ⟨ho, hp1, hu1, hs1⟩ := usbStep_bypass_irrelevant s t e hp hu hs
      obtain ⟨ho2, hp2⟩ := ih (usbStep s e).1 (usbStep t e).1 hp1 hu1 hs1
      refine ⟨?_, by simpa [usbRun] using hp2⟩
      simp only [usbRun]
      rw [ho, ho2]

/-- The bypass idle loop is absorbing: whatever events arrive, the
worker never leaves it. -/
theorem usbRun_bypassIdle_absorbing (evs : List UEvent) :
    ∀ s : UState, s.phase = .bypassIdle →
      (usbRun s evs).1.phase = .bypassIdle := by
  induction evs with
  | nil => intro s h; simpa [usbRun] using h
  | cons e es ih =>
      intro s h
      rcases s with ⟨ph, up, bm⟩
      simp only at h
      subst h
      cases e with
      | setBypass b => exact ih _ rfl
      | begin => exact ih _ rfl
      | sample b => exact ih _ rfl

/-- C10: `_bypass_mode` is read exactly once, at the start of the worker
loop.  A `set_bypass_mode` call is a pure field write with no output;
once the worker is past its initial read, changing the field alters
neither the outputs nor the phase evolution over any further events —
a worker that started non-bypassed keeps behaving identically (it can
still trip), and a worker that started bypassed never leaves the idle
loop. -/
theorem C10_bypass_read_once (s : UState) (b : Bool) (evs : List UEvent)
    (h : s.phase ≠ .atStart) :
    usbStep s (.setBypass b) = (set_bypass_mode s b, []) ∧
    (usbRun (set_bypass_mode s b) evs).2 = (usbRun s evs).2 ∧
    (usbRun (set_bypass_mode s b) evs).1.phase = (usbRun s evs).1.phase ∧
    (s.phase = .bypassIdle → (usbRun s evs).1.phase = .bypassIdle) := by
  have H := usbRun_bypass_irrelevant evs (set_bypass_mode s b) s rfl rfl
      (by simpa [set_bypass_mode] using h)
  exact ⟨rfl, H.1, H.2, usbRun_bypassIdle_absorbing evs s⟩

/-- Witness for C10: an armed worker, a bypass write, one more absent
sample. -/
theorem C10_bypass_read_once_witness :
    ((UState.mk (.armed true) true false).phase ≠ .atStart) ∧
    (usbStep (UState.mk (.armed true) true false) (.setBypass true)
        = (set_bypass_mode (UState.mk (.armed true) true false) true, []) ∧
     (usbRun (set_bypass_mode (UState.mk (.armed true) true false) true)
        [.sample false]).2
       = (usbRun (UState.mk (.armed true) true false) [.sample false]).2 ∧
     (usbRun (set_bypass_mode (UState.mk (.armed true) true false) true)
        [.sample false]).1.phase
       = (usbRun (UState.mk (.armed true) true false) [.sample false]).1.phase ∧
     ((UState.mk (.armed true) true false).phase = .bypassIdle →
       (usbRun (UState.mk (.armed true) true false)
          [.sample false]).1.phase = .bypassIdle)) :=
  ⟨by decide, C10_bypass_read_once (UState.mk (.armed true) true false) true
      [.sample false] (by decide)⟩

/-- C7 as stated is false on the code: with a present baseline, an
enumeration error makes `check_ghost_key_present` return `False`, and
the loop's trip test `initial_state and not current_state` then fires
the panic — the panic count over the run is not zero. -/
theorem C7_error_counterexample :
    check_ghost_key_present (.error ()) = false ∧
    ¬ panicCount (usbRun (usbInit false)
        [.begin, .sample true,
         .sample (check_ghost_key_present (.error ()))]).2 = 0 := by
  constructor
  · rfl
  · decide

/-- C7 (amended): a token-enumeration error makes
`check_ghost_key_present` report the token absent (`False`) without
propagating the exception; when the baseline was present, that error
result is indistinguishable from removal and does trigger panic,
emitting REMOVED / CRITICAL and stopping the worker. -/
theorem C7_error_reported_absent (e : Unit) (p bm : Bool) :
    check_ghost_key_present (.error e) = false ∧
    (usbStep (UState.mk (.armed true) p bm)
        (.sample (check_ghost_key_present (.error e)))).2
      = [.status "usb" "REMOVED", .status "threat" "CRITICAL", .panic] ∧
    (usbStep (UState.mk (.armed true) p bm)
        (.sample (check_ghost_key_present (.error e)))).1.phase
      = .stopped := by
  cases e
  exact ⟨rfl, rfl, rfl⟩

/-! ## Claim theorems: the camera sentinel -/

/-- C4: side effects fire only when the classification of the face count
changes from the previous sample (`last_face_count`, which stays in
{0, 1} while the loop runs, starting at 1); and on the sample sequence
[1, 0, 1, 2] — whatever frames would follow — the whole worker emits
exactly ARMED, LOCKED + blur-engage, ARMED + blur-disengage, BREACH,
CRITICAL and a single panic, with nothing processed after the 2. -/
theorem C4_presence_edge_and_sequence (last n : Nat) (rest : List Nat)
    (hlast : last ≤ 1) (hsame : classify n = classify last) :
    (camStep last n).1 = [] ∧
    cameraLoop ([1, 0, 1, 2] ++ rest) =
      [.status "camera" "ARMED",
       .status "camera" "LOCKED", .blur true,
       .status "camera" "ARMED", .blur false,
       .status "camera" "BREACH", .status "threat" "CRITICAL", .panic] ∧
    camPanicCount (cameraLoop ([1, 0, 1, 2] ++ rest)) = 1 := by
  refine ⟨?_, rfl, rfl⟩
  have h01 : last = 0 ∨ last = 1 := by omega
  rcases h01 with h | h <;> subst h
  · by_cases h0 : n = 0
    · subst h0; rfl
    · exfalso
      by_cases h1 : n = 1 <;> simp [classify, h0, h1] at hsame
  · by_cases h1 : n = 1
    · subst h1; rfl
    · exfalso
      by_cases h0 : n = 0 <;> simp [classify, h0, h1] at hsame

/-- Witness for C4: a repeated present sample fires nothing, and the
concrete [1, 0, 1, 2] trace (with trailing frames) is as claimed. -/
theorem C4_presence_edge_and_sequence_witness :
    (1 ≤ 1 ∧ classify 1 = classify 1) ∧
    ((camStep 1 1).1 = [] ∧
     cameraLoop ([1, 0, 1, 2] ++ [5, 0]) =
       [.status "camera" "ARMED",
        .status "camera" "LOCKED", .blur true,
        .status "camera" "ARMED", .blur false,
        .status "camera" "BREACH", .status "threat" "CRITICAL", .panic] ∧
     camPanicCount (cameraLoop ([1, 0, 1, 2] ++ [5, 0])) = 1) :=
  ⟨⟨by decide, rfl⟩, C4_presence_edge_and_sequence 1 1 [5, 0] (by decide) rfl⟩
